import Mathlib

/-!
Verification of the lightyear replication core against its specification.

The definitions below are a shallow embedding of the Rust source:
`shared/replication/components.rs`, `shared/replication/authority.rs`,
`client/config.rs` and `server/config.rs`.  Machine integers are modelled
as `Nat`; the `f32` send priority is modelled as an exact rational;
a Rust panic is modelled by returning `none`.  Parts of the replication
pipeline whose bodies are not part of the shown source (the tick clock,
the replication sender loop, the receive-side authority check) are
modelled from the specification text and marked as such in their doc
comments.
-/

namespace Lightyear

/-- Client identifier. In the source `ClientId` is an enum over transport
backends, each carrying a `u64`; the claims only need equality, so we model
it as the carried id. -/
structure ClientId where
  id : Nat
deriving DecidableEq, Repr

/-- Bevy `Entity`: an index (`u32`) and a generation (`u32`). -/
structure Entity where
  index : Nat
  generation : Nat
deriving DecidableEq, Repr

/-- `Entity::to_bits`: the bit representation `(generation << 32) | index`
of an entity handle (both fields are 32-bit in bevy, so the bitwise-or is
addition). -/
def Entity.to_bits (e : Entity) : Nat :=
  e.generation * 2 ^ 32 + e.index % 2 ^ 32

/-- `AuthorityPeer` from `shared/replication/authority.rs`: who is in
charge of simulating an entity. The Rust `#[default]` attribute sits on
the `Server` variant. -/
inductive AuthorityPeer where
  | None
  | Server
  | Client (id : ClientId)
deriving DecidableEq, Repr

/-- The `Default` impl derived for `AuthorityPeer`: the variant carrying
`#[default]`, which is `Server`. -/
def AuthorityPeer.default : AuthorityPeer := AuthorityPeer.Server

/-- `ReplicationGroupIdBuilder` from `shared/replication/components.rs`. -/
inductive ReplicationGroupIdBuilder where
  | FromEntity
  | Group (id : Nat)
deriving DecidableEq, Repr

/-- `ReplicationGroupId(pub u64)` from `shared/replication/components.rs`. -/
structure ReplicationGroupId where
  id : Nat
deriving DecidableEq, Repr

/-- `ReplicationGroup` from `shared/replication/components.rs`; the `f32`
base priority is modelled as an exact rational. -/
structure ReplicationGroup where
  id_builder : ReplicationGroupIdBuilder
  base_priority : ℚ
deriving DecidableEq, Repr

/-- The `Default` impl of `ReplicationGroup`: `FromEntity` with base
priority `1.0`. -/
def ReplicationGroup.default : ReplicationGroup :=
  { id_builder := ReplicationGroupIdBuilder.FromEntity, base_priority := 1 }

/-- `ReplicationGroup::group_id`: with `FromEntity` the id is the entity's
bit representation and the source panics (`expect`) when no entity is
supplied, modelled as `none`; with `Group(id)` the id is returned as is. -/
def ReplicationGroup.group_id (g : ReplicationGroup) (entity : Option Entity) :
    Option ReplicationGroupId :=
  match g.id_builder with
  | ReplicationGroupIdBuilder.FromEntity =>
      match entity with
      | some e => some ⟨e.to_bits⟩
      | none => none
  | ReplicationGroupIdBuilder.Group id => some ⟨id⟩

/-- `ReplicationGroup::priority`: returns the base priority. -/
def ReplicationGroup.priority (g : ReplicationGroup) : ℚ :=
  g.base_priority

end Lightyear

namespace Lightyear

/-- `ReplicationConfig` from `client/config.rs` and `server/config.rs`
(field-for-field identical in both files). -/
structure ReplicationConfig where
  send_updates_since_last_ack : Bool
deriving DecidableEq, Repr

/-- The derived `Default` for `ReplicationConfig`: the boolean flag
defaults to `false`. -/
def ReplicationConfig.default : ReplicationConfig :=
  { send_updates_since_last_ack := false }

/-- Which updates the sender accumulates for an entity, per the doc
comment on `send_updates_since_last_ack`: with the flag `false` (the
default) it sends all component updates since the last time it *sent* an
update for the entity; with the flag `true` it sends all updates since
the last received *ACK*.  `changes` lists the ticks at which the
component changed; the result is the set of change ticks included in the
next send. -/
def collect_updates (cfg : ReplicationConfig) (changes : List Nat)
    (last_sent last_acked : Nat) : List Nat :=
  if cfg.send_updates_since_last_ack then
    changes.filter (fun t => decide (last_acked < t))
  else
    changes.filter (fun t => decide (last_sent < t))

/-- Tick clock. Modelled from the spec: the body of the
`utils::wrapping_id` module is not part of the shown source (only its
`pub mod` declaration is), so the tick clock is taken from the spec's
words: a monotonically increasing counter, `advance()` adds exactly one
per fixed-duration step, `now()` reads it. -/
structure TickClock where
  tick : Nat
deriving DecidableEq, Repr

/-- `advance()`: one local step, the tick increases by exactly 1. -/
def TickClock.advance (c : TickClock) : TickClock :=
  { tick := c.tick + 1 }

/-- `now()`: the current tick. -/
def TickClock.now (c : TickClock) : Nat :=
  c.tick

/-- `advance()` called `n` times in sequence. -/
def TickClock.advanceN (c : TickClock) : Nat → TickClock
  | 0 => c
  | n + 1 => (c.advanceN n).advance

/-- The identity of a peer on the network: the server or one client. -/
inductive Peer where
  | Server
  | Client (id : ClientId)
deriving DecidableEq, Repr

/-- Whether the authority record names the given peer as the authority
holder: the record `Server` names the server, `Client(id)` names exactly
that client, `None` names nobody. -/
def AuthorityPeer.holds (a : AuthorityPeer) (p : Peer) : Bool :=
  match a, p with
  | AuthorityPeer.Server, Peer.Server => true
  | AuthorityPeer.Client i, Peer.Client j => decide (i = j)
  | _, _ => false

/-- Receive-side state for one replicated object: its authority record,
the stored component value (abstracted to an integer), and the events
raised so far. -/
structure ReceiverState where
  authority : AuthorityPeer
  value : Int
  events : List Int
deriving DecidableEq, Repr

/-- Modelled from the spec: the replication receiver's processing of one
incoming component update (the receive pipeline body is not part of the
shown source; `authority.rs` holds only the `AuthorityPeer` record and
the tests exercising this rule).  An update is applied, and an event
raised, only when the authority record names the sender as the holder;
otherwise the update is discarded silently: state and events unchanged. -/
def processUpdate (st : ReceiverState) (sender : Peer) (newValue : Int) :
    ReceiverState :=
  if st.authority.holds sender then
    { st with value := newValue, events := st.events ++ [newValue] }
  else
    st

/-- Per-peer authority state: the local has-authority flag
(`HasAuthority` marker component in the source). -/
structure PeerAuthorityState where
  hasAuthority : Bool
deriving DecidableEq, Repr

/-- Modelled from the spec: a peer observing an authority transfer sets
its has-authority flag exactly when the new authority record names that
peer (the transfer-handling systems are not part of the shown source;
the tests in `authority.rs` exercise this behaviour). -/
def PeerAuthorityState.observeTransfer (st : PeerAuthorityState) (self : Peer)
    (newRecord : AuthorityPeer) : PeerAuthorityState :=
  { hasAuthority := newRecord.holds self }

/-- From the doc comment on `HasAuthority`: a peer with authority over an
object does not accept remote replication updates for it; a peer without
authority does. -/
def acceptsRemoteUpdates (st : PeerAuthorityState) : Bool :=
  !st.hasAuthority

/-- `AuthorityChange` from `shared/replication/authority.rs`: a message
payload carrying an entity-id field. -/
structure AuthorityChange where
  entity : Entity
  gain_authority : Bool
deriving DecidableEq, Repr

/-- The `MapEntities` impl for `AuthorityChange`: applies the entity
mapper to the embedded entity-id field. -/
def AuthorityChange.map_entities (m : AuthorityChange)
    (mapper : Entity → Entity) : AuthorityChange :=
  { m with entity := mapper m.entity }

/-- Lookup in the per-connection Entity Map, a table of
(remote handle, local handle) pairs: the local handle corresponding to a
remote one. -/
def get_local (map : List (Entity × Entity)) (remote : Entity) :
    Option Entity :=
  (map.find? (fun p => decide (p.1 = remote))).map Prod.snd

/-- Modelled from the spec: the replication receiver translates
entity-id fields embedded in a received component payload through the
per-connection Entity Map before writing the payload into local state
(the receiver body is not part of the shown source; the `MapEntities`
impl above is).  Returns the payload as stored, or `none` when the
reference does not yet translate (held for retry). -/
def receivePayload (map : List (Entity × Entity)) (msg : AuthorityChange) :
    Option AuthorityChange :=
  (get_local map msg.entity).map fun l => { msg with entity := l }

/-- Modelled from the spec: per-group send-priority bookkeeping kept by
the replication sender (the sender body is not part of the shown source;
`ReplicationGroup` in `components.rs` documents that the priority is
reset to `base_priority` every time a message is sent successfully). -/
structure GroupSendState where
  base_priority : ℚ
  priority : ℚ
deriving DecidableEq, Repr

/-- Modelled from the spec: one tick of the sender's priority
bookkeeping for a group.  After a successful send the priority is reset
to the base value; a group left unsent ages, its priority accumulating
by the base value (the aging rate) each tick. -/
def prioTick (st : GroupSendState) (sent : Bool) : GroupSendState :=
  if sent then { st with priority := st.base_priority }
  else { st with priority := st.priority + st.base_priority }

/-- A group left unsent for `k` consecutive ticks. -/
def unsentTicks (st : GroupSendState) : Nat → GroupSendState
  | 0 => st
  | k + 1 => prioTick (unsentTicks st k) false

/-- The sender sorts eligible groups by descending priority: `a` is
scheduled before `b` when its priority is strictly larger. -/
def scheduledBefore (a b : GroupSendState) : Prop :=
  b.priority < a.priority

/-- Modelled from the spec: the sender packs the entities visible to a
peer into messages grouped by Replication Group Id, every entity of a
group going into that group's single message (`components.rs` documents
that entities of one group are sent together in the same message). -/
def sendMessages (entities : List Entity)
    (groupOf : Entity → ReplicationGroupId) :
    List (ReplicationGroupId × List Entity) :=
  ((entities.map groupOf).dedup).map
    (fun g => (g, entities.filter (fun e => decide (groupOf e = g))))

/-- Modelled from the spec: applying one delivered message to the remote
world updates every entity the message contains in the same step, and no
other entity (`components.rs` documents that entities of one group are
updated at the same time on the remote world). -/
def applyMessage (st : Entity → Int) (m : ReplicationGroupId × List Entity)
    (newVal : Entity → Int) : Entity → Int :=
  fun e => if e ∈ m.2 then newVal e else st e

end Lightyear

namespace Lightyear

/-- C7: `ReplicationGroup::group_id` derives the group id as claimed: with
the `FromEntity` builder it is the supplied entity handle's bit
representation, and with an explicit `Group(id)` builder it is that id
regardless of the entity argument. -/
theorem group_id_derivation :
    (∀ (p : ℚ) (e : Entity),
      ReplicationGroup.group_id ⟨ReplicationGroupIdBuilder.FromEntity, p⟩ (some e) =
        some ⟨e.to_bits⟩) ∧
    (∀ (p : ℚ) (id : Nat) (entity : Option Entity),
      ReplicationGroup.group_id ⟨ReplicationGroupIdBuilder.Group id, p⟩ entity =
        some ⟨id⟩) := by
  constructor
  · intro p e
    rfl
  · intro p id entity
    rfl

/-- C9: the derived `Default` for `AuthorityPeer` is the `Server` variant
(the `#[default]` attribute is on `Server`), not `None`. -/
theorem authority_peer_default_is_server :
    AuthorityPeer.default = AuthorityPeer.Server ∧
      AuthorityPeer.default ≠ AuthorityPeer.None := by
  exact ⟨rfl, by decide⟩

/-- C10: `ReplicationGroup::group_id` panics (modelled as `none`) exactly
when the builder is `FromEntity` and no entity is supplied; with an
explicit `Group(id)` builder, or with `FromEntity` and `some` entity, it
never panics. -/
theorem group_id_panic_behaviour :
    (∀ (p : ℚ),
      ReplicationGroup.group_id ⟨ReplicationGroupIdBuilder.FromEntity, p⟩ none = none) ∧
    (∀ (p : ℚ) (id : Nat) (entity : Option Entity),
      (ReplicationGroup.group_id ⟨ReplicationGroupIdBuilder.Group id, p⟩ entity).isSome) ∧
    (∀ (p : ℚ) (e : Entity),
      (ReplicationGroup.group_id ⟨ReplicationGroupIdBuilder.FromEntity, p⟩ (some e)).isSome) := by
  refine ⟨fun p => rfl, fun p id entity => rfl, fun p e => rfl⟩

/-- C3 counterexample: the claim says the *default* configuration
accumulates changes since the last acknowledged send.  Concretely: the
component changed at tick 2, the sender last sent at tick 3, and no ACK
was ever received (last acked tick 0).  Under the claim the change at
tick 2 would be accumulated (2 > 0); the code's default accumulates
nothing (2 ≤ 3), because the default basis is the last *sent* time. -/
theorem collect_updates_default_not_since_ack :
    collect_updates ReplicationConfig.default [2] 3 0 = [] ∧
      List.filter (fun t => decide (0 < t)) [2] = [2] := by
  decide

/-- C3 amended: the default (`send_updates_since_last_ack = false`)
accumulates changed records since the last *sent* time, and only when the
flag is set does the sender accumulate changes since the last
*acknowledged* send. -/
theorem collect_updates_basis :
    (∀ (changes : List Nat) (ls la : Nat),
      collect_updates ReplicationConfig.default changes ls la =
        changes.filter (fun t => decide (ls < t))) ∧
    (∀ (changes : List Nat) (ls la : Nat),
      collect_updates ⟨true⟩ changes ls la =
        changes.filter (fun t => decide (la < t))) := by
  exact ⟨fun changes ls la => rfl, fun changes ls la => rfl⟩

/-- C8: for every initial tick and every `n`, `now()` after `n` calls to
`advance()` equals the initial tick plus `n`; each step increases the
tick by exactly 1 and the tick never decreases. -/
theorem tick_clock_now_after_advances :
    (∀ (init n : Nat), ((TickClock.mk init).advanceN n).now = init + n) ∧
    (∀ c : TickClock, c.advance.now = c.now + 1) ∧
    (∀ c : TickClock, c.now ≤ c.advance.now) := by
  refine ⟨?_, fun c => rfl, fun c => Nat.le_succ _⟩
  intro init n
  induction n with
  | zero => rfl
  | succ n ih =>
      simp [TickClock.advanceN, TickClock.advance, TickClock.now] at ih ⊢
      omega

/-- C1: an incoming component update whose sender is not named by the
object's authority record is never applied: the stored value and the
event list are unchanged and the whole receiver state is returned as it
was (discarded silently, no event raised). -/
theorem non_authority_update_rejected (st : ReceiverState) (sender : Peer)
    (v : Int) (h : st.authority.holds sender = false) :
    (processUpdate st sender v).value = st.value ∧
    (processUpdate st sender v).events = st.events ∧
    processUpdate st sender v = st := by
  have hp : processUpdate st sender v = st := by
    unfold processUpdate
    rw [h]
    simp
  exact ⟨by rw [hp], by rw [hp], hp⟩

/-- C1 witness: a server-authoritative object rejects an update sent by
client 1. -/
theorem non_authority_update_rejected_witness :
    (AuthorityPeer.Server.holds (Peer.Client ⟨1⟩) = false) ∧
      processUpdate ⟨AuthorityPeer.Server, 1, []⟩ (Peer.Client ⟨1⟩) 2 =
        ⟨AuthorityPeer.Server, 1, []⟩ :=
  ⟨by decide,
    (non_authority_update_rejected ⟨AuthorityPeer.Server, 1, []⟩
      (Peer.Client ⟨1⟩) 2 (by decide)).2.2⟩

/-- C2: after a transfer to a record naming the new holder and not the
old one is observed, the old holder's has-authority flag is cleared and
it accepts remote updates again, while the new holder's flag is set and
it stops accepting remote updates. -/
theorem authority_transfer_flags (oldPeer newPeer : Peer)
    (newRecord : AuthorityPeer) (stOld stNew : PeerAuthorityState)
    (hOld : newRecord.holds oldPeer = false)
    (hNew : newRecord.holds newPeer = true) :
    (stOld.observeTransfer oldPeer newRecord).hasAuthority = false ∧
    acceptsRemoteUpdates (stOld.observeTransfer oldPeer newRecord) = true ∧
    (stNew.observeTransfer newPeer newRecord).hasAuthority = true ∧
    acceptsRemoteUpdates (stNew.observeTransfer newPeer newRecord) = false := by
  simp [PeerAuthorityState.observeTransfer, acceptsRemoteUpdates, hOld, hNew]

/-- C2 witness: authority transferred from the server to client 1. -/
theorem authority_transfer_flags_witness :
    ((AuthorityPeer.Client ⟨1⟩).holds Peer.Server = false) ∧
    ((AuthorityPeer.Client ⟨1⟩).holds (Peer.Client ⟨1⟩) = true) ∧
    (PeerAuthorityState.observeTransfer ⟨true⟩ Peer.Server
        (AuthorityPeer.Client ⟨1⟩)).hasAuthority = false ∧
    (PeerAuthorityState.observeTransfer ⟨false⟩ (Peer.Client ⟨1⟩)
        (AuthorityPeer.Client ⟨1⟩)).hasAuthority = true :=
  ⟨by decide, by decide,
    (authority_transfer_flags Peer.Server (Peer.Client ⟨1⟩)
      (AuthorityPeer.Client ⟨1⟩) ⟨true⟩ ⟨false⟩ (by decide) (by decide)).1,
    (authority_transfer_flags Peer.Server (Peer.Client ⟨1⟩)
      (AuthorityPeer.Client ⟨1⟩) ⟨true⟩ ⟨false⟩ (by decide) (by decide)).2.2.1⟩

/-- C6: `map_entities` rewrites exactly the entity-id field through the
mapper, and a payload the receiver stores has its entity-id field equal
to the Entity Map's local handle for the sender's handle (never the raw
remote handle, whenever the map sends it elsewhere). -/
theorem entity_map_translation :
    (∀ (msg : AuthorityChange) (mapper : Entity → Entity),
      msg.map_entities mapper =
        { entity := mapper msg.entity, gain_authority := msg.gain_authority }) ∧
    (∀ (map : List (Entity × Entity)) (msg stored : AuthorityChange),
      receivePayload map msg = some stored →
        get_local map msg.entity = some stored.entity ∧
          stored.gain_authority = msg.gain_authority) := by
  constructor
  · intro msg mapper
    rfl
  · intro map msg stored hrec
    unfold receivePayload at hrec
    cases hloc : get_local map msg.entity with
    | none => rw [hloc] at hrec; simp at hrec
    | some l =>
        rw [hloc] at hrec
        have hs : ({ msg with entity := l } : AuthorityChange) = stored :=
          Option.some.inj hrec
        rw [← hs]
        exact ⟨rfl, rfl⟩

/-- C6 witness: remote handle (1,0) translates to local handle (2,0);
the stored payload carries the local handle. -/
theorem entity_map_translation_witness :
    receivePayload [(⟨1, 0⟩, ⟨2, 0⟩)] ⟨⟨1, 0⟩, true⟩ =
        some ⟨⟨2, 0⟩, true⟩ ∧
      get_local [(⟨1, 0⟩, ⟨2, 0⟩)] (⟨1, 0⟩ : Entity) = some ⟨2, 0⟩ :=
  ⟨by decide,
    ((entity_map_translation.2 [(⟨1, 0⟩, ⟨2, 0⟩)] ⟨⟨1, 0⟩, true⟩
      ⟨⟨2, 0⟩, true⟩ (by decide)).1)⟩

/-- Aging helper: after `k` unsent ticks the priority has grown by `k`
times the base and the base itself is unchanged. -/
theorem unsentTicks_spec (g : GroupSendState) (k : Nat) :
    (unsentTicks g k).priority = g.priority + k * g.base_priority ∧
    (unsentTicks g k).base_priority = g.base_priority := by
  induction k with
  | zero => simp [unsentTicks]
  | succ k ih =>
      constructor
      · show (prioTick (unsentTicks g k) false).priority = _
        simp [prioTick, ih.1, ih.2]
        ring
      · show (prioTick (unsentTicks g k) false).base_priority = _
        simp [prioTick, ih.2]

/-- C4: a successful send resets a group's priority to its base value,
an unsent tick accumulates the base onto the priority, and consequently
there is a K (determined by the aging rates) past which a group unsent
for that many consecutive ticks is scheduled before any group sent
within the last tick (whose priority was just reset). -/
theorem priority_aging (g1 g2 : GroupSendState)
    (h1 : 0 < g1.base_priority) (h2 : 0 < g2.base_priority) :
    (∀ st : GroupSendState, (prioTick st true).priority = st.base_priority) ∧
    (∀ st : GroupSendState,
      (prioTick st false).priority = st.priority + st.base_priority) ∧
    ∃ K : Nat, ∀ k : Nat, K ≤ k →
      scheduledBefore (unsentTicks g1 k) (prioTick g2 true) := by
  refine ⟨fun st => rfl, fun st => rfl, ?_⟩
  obtain ⟨K, hK⟩ :=
    exists_nat_gt ((g2.base_priority - g1.priority) / g1.base_priority)
  refine ⟨K, fun k hk => ?_⟩
  have hKk : ((K : ℚ)) ≤ (k : ℚ) := by exact_mod_cast hk
  have h3 : (g2.base_priority - g1.priority) / g1.base_priority < (k : ℚ) :=
    lt_of_lt_of_le hK hKk
  have h4 : g2.base_priority - g1.priority < (k : ℚ) * g1.base_priority :=
    (div_lt_iff₀ h1).mp h3
  have hpk := (unsentTicks_spec g1 k).1
  show (prioTick g2 true).priority < (unsentTicks g1 k).priority
  have hreset : (prioTick g2 true).priority = g2.base_priority := rfl
  rw [hreset, hpk]
  linarith

/-- C4 witness: two groups of base priority 1; after 2 unsent ticks the
starved group outranks the freshly sent one. -/
theorem priority_aging_witness :
    ((0 : ℚ) < (1 : ℚ)) ∧
      ∃ K : Nat, ∀ k : Nat, K ≤ k →
        scheduledBefore (unsentTicks ⟨1, 1⟩ k) (prioTick ⟨1, 1⟩ true) :=
  ⟨by norm_num,
    (priority_aging ⟨1, 1⟩ ⟨1, 1⟩ (by norm_num) (by norm_num)).2.2⟩

/-- C5: any packed message that mentions an entity contains every
visible entity sharing its Replication Group Id, and applying the
message updates both entities in the same step. -/
theorem replication_group_atomic (entities : List Entity)
    (groupOf : Entity → ReplicationGroupId)
    (m : ReplicationGroupId × List Entity) (e e2 : Entity)
    (hm : m ∈ sendMessages entities groupOf) (he : e ∈ m.2)
    (he2 : e2 ∈ entities) (hg : groupOf e2 = groupOf e) :
    e2 ∈ m.2 ∧
      ∀ (st newVal : Entity → Int),
        applyMessage st m newVal e = newVal e ∧
          applyMessage st m newVal e2 = newVal e2 := by
  unfold sendMessages at hm
  obtain ⟨g, hgmem, hmg⟩ := List.mem_map.mp hm
  subst hmg
  simp only at he ⊢
  have hge : groupOf e = g := by
    have := List.of_mem_filter he
    exact of_decide_eq_true this
  have he2m : e2 ∈ entities.filter (fun x => decide (groupOf x = g)) := by
    refine List.mem_filter.mpr ⟨he2, ?_⟩
    exact decide_eq_true (hg.trans hge)
  refine ⟨he2m, fun st newVal => ?_⟩
  constructor
  · unfold applyMessage
    rw [if_pos he]
  · unfold applyMessage
    rw [if_pos he2m]

/-- C5 witness: two entities in group 5 are packed into one message
together. -/
theorem replication_group_atomic_witness :
    ((⟨5⟩, [⟨1, 0⟩, ⟨2, 0⟩]) : ReplicationGroupId × List Entity) ∈
        sendMessages [⟨1, 0⟩, ⟨2, 0⟩] (fun _ => ⟨5⟩) ∧
      (⟨2, 0⟩ : Entity) ∈
        ((⟨5⟩, [⟨1, 0⟩, ⟨2, 0⟩]) : ReplicationGroupId × List Entity).2 :=
  ⟨by decide,
    (replication_group_atomic [⟨1, 0⟩, ⟨2, 0⟩] (fun _ => ⟨5⟩)
      (⟨5⟩, [⟨1, 0⟩, ⟨2, 0⟩]) ⟨1, 0⟩ ⟨2, 0⟩ (by decide) (by decide)
      (by decide) (by decide)).1⟩

end Lightyear
